import Mathlib

/-!
Shallow embedding of `reproducibility.py`, a snapshot utility that copies
source files, records the git revision, and exports the conda environment
into one destination directory. External processes (git, conda), the
directory listing, the prior state of the destination path, and the system
clock are modelled as explicit inputs; file writes and printed messages are
collected as data. Python exceptions are modelled with `Except` over the
error kinds the called operations can raise.
-/

namespace Repro

/-- Kinds of Python exceptions the modelled operations can raise
(all derive from `Exception`, so `except Exception` catches them). -/
inductive PyExc where
  | calledProcessError
  | oserror (msg : String)
  | runtimeError (msg : String)
  | indexError
  deriving DecidableEq, Repr

/-- The `str(e)` rendering used by `print(f"Error: {str(e)}")`. -/
def excMessage : PyExc → String
  | .calledProcessError => "CalledProcessError"
  | .oserror m => m
  | .runtimeError m => m
  | .indexError => "list index out of range"

/-- Characters Python `str.strip` and `str.split` treat as whitespace. -/
def isPyWs (c : Char) : Bool :=
  c == ' ' || c == '\t' || c == '\n' || c == '\r' || c == '\x0b' || c == '\x0c'

/-- Python `str.strip()` on a character list: drop whitespace at both ends. -/
def pyStripL (l : List Char) : List Char :=
  ((l.dropWhile isPyWs).reverse.dropWhile isPyWs).reverse

/-- Python `str.strip()`. -/
def pyStrip (s : String) : String :=
  (pyStripL s.toList).asString

/-- Split a character list at every occurrence of a separator character,
like Python `str.split(sep)` (keeps empty pieces). -/
def splitCharL (sep : Char) : List Char → List (List Char)
  | [] => [[]]
  | x :: xs =>
    if x == sep then [] :: splitCharL sep xs
    else
      match splitCharL sep xs with
      | [] => [[x]]
      | y :: ys => (x :: y) :: ys

/-- Python `str.split()` with no argument: split on whitespace runs,
dropping empty pieces. -/
def pySplitWsL (l : List Char) : List (List Char) :=
  (l.foldr
    (fun c acc =>
      match acc with
      | [] => if isPyWs c then [] else [[c]]
      | y :: ys => if isPyWs c then [] :: y :: ys else (c :: y) :: ys)
    []).filter (fun w => !w.isEmpty)

/-- `s.endswith(suffix)` on character lists. -/
def endsWithL (l suf : List Char) : Bool :=
  l.reverse.take suf.length == suf.reverse

/-- Python `s.endswith(suffix)`. -/
def pyEndsWith (s suf : String) : Bool :=
  endsWithL s.toList suf.toList

/-- `remote_url[:-4] if remote_url.endswith(".git") else remote_url`,
the suffix strip on line 67 of the source. -/
def stripSuffixGitL (l : List Char) : List Char :=
  if l.reverse.take 4 = ['t', 'i', 'g', '.'] then (l.reverse.drop 4).reverse else l

/-- True on every character other than the path separator. -/
def notSlash (c : Char) : Bool := !(c == '/')

/-- `os.path.basename` (POSIX): the part after the last slash. -/
def basenameL (l : List Char) : List Char :=
  (l.reverse.takeWhile notSlash).reverse

/-- Whether a path is absolute: its first character is a slash. -/
def startsWithSlash (f : String) : Bool :=
  f.toList.headD ' ' == '/'

/-- `os.path.join(d, f)` (POSIX). -/
def pyJoin (d f : String) : String :=
  if startsWithSlash f then f
  else if d = "" then f
  else if endsWithL d.toList ['/'] then d ++ f
  else d ++ "/" ++ f

/-- `' '.join(parts)`. -/
def joinSpace : List String → String
  | [] => ""
  | [s] => s
  | s :: rest => s ++ " " ++ joinSpace rest

/-- The outcomes of the four external git queries issued by
`save_git_commit_to_file`, plus the absolute path of the current working
directory used by the fallback `os.path.basename(os.path.abspath(os.curdir))`.
Each query is `.ok stdout` on exit status 0 (with `check=True`), or
`.error` for `CalledProcessError` and any other raised exception. -/
structure GitWorld where
  isInsideWorkTree : Except PyExc String
  revParseHead : Except PyExc String
  abbrevRefHead : Except PyExc String
  remoteOriginUrl : Except PyExc String
  cwdAbsPath : String
  deriving Repr

/-- Project-name derivation of lines 53-73: strip the remote URL, drop a
trailing `.git`, take the basename; on any failure of the remote query,
fall back to the basename of the current working directory. -/
def projectName (w : GitWorld) : String :=
  match w.remoteOriginUrl with
  | .error _ => (basenameL w.cwdAbsPath.toList).asString
  | .ok out => (basenameL (stripSuffixGitL (pyStripL out.toList))).asString

/-- The exact text written to `git_commit_{timestamp}.txt` (lines 77-84). -/
def gitDescriptor (project_name branch_name commit_hash : String) : String :=
  "Project Name: " ++ project_name ++ "\n" ++
  "Branch Name: " ++ branch_name ++ "\n" ++
  "Commit Hash: " ++ commit_hash ++ "\n" ++
  "View single commit: https://github.com/<user>/" ++ project_name ++
    "/commit/" ++ commit_hash ++ "\n" ++
  "View log: https://github.com/<user>/" ++ project_name ++
    "/commits/" ++ commit_hash ++ "\n" ++
  "/!\\ the files in the directory may have been modified since the last commit!!\n"

/-- Result of one component call: the Python return value, the files it
wrote as (path, content) pairs, and the messages it printed. -/
structure GitOutcome where
  ret : Bool
  writes : List (String × String)
  printed : List String
  deriving Repr, DecidableEq

/-- Body of the `try:` block of `save_git_commit_to_file` (lines 29-87).
The clock is the list of future `datetime.now()` readings; the timestamp is
sampled (line 76) only after the three required queries succeeded. Returns
the outcome together with the remaining clock. -/
def save_git_commit_body (w : GitWorld) (d : String) (clock : List String) :
    Except PyExc (GitOutcome × List String) :=
  match w.isInsideWorkTree with
  | .error e => .error e
  | .ok _ =>
    match w.revParseHead with
    | .error e => .error e
    | .ok hashOut =>
      match w.abbrevRefHead with
      | .error e => .error e
      | .ok branchOut =>
        let commit_hash := pyStrip hashOut
        let branch_name := pyStrip branchOut
        let project_name := projectName w
        let timestamp := clock.headD ""
        let fname := pyJoin d ("git_commit_" ++ timestamp ++ ".txt")
        .ok (⟨true, [(fname, gitDescriptor project_name branch_name commit_hash)],
              ["Git information saved to " ++ fname]⟩, clock.tail)

/-- `save_git_commit_to_file(d)` (lines 8-94): the body wrapped in the two
handlers, `except subprocess.CalledProcessError` and `except Exception`,
each returning `False` after printing a message. -/
def save_git_commit_to_file (w : GitWorld) (d : String) (clock : List String) :
    GitOutcome × List String :=
  match save_git_commit_body w d clock with
  | .ok r => r
  | .error .calledProcessError =>
      (⟨false, [], ["Error: Not a git repository or git is not installed."]⟩, clock)
  | .error e => (⟨false, [], ["Error: " ++ excMessage e]⟩, clock)

/-- One entry of `os.listdir(".")`: its name, whether it is a regular file
(a non-file entry makes `shutil.copy2` raise), and its content. -/
structure DirEntry where
  name : String
  isRegularFile : Bool
  content : String
  deriving Repr, DecidableEq

/-- `any(s.endswith(ext) for ext in extensions)` (line 167). -/
def matchesExt (extensions : List String) (s : String) : Bool :=
  extensions.any (fun ext => pyEndsWith s ext)

/-- The copy loop of lines 170-171: `shutil.copy2` each selected entry in
order into `d` under the new name `{name}_{timestamp}.txt`. A selected
entry that is not a regular file raises `IsADirectoryError`; copies made
before the failure persist, entries after it are not attempted. -/
def copyLoop (d timestamp : String) : List DirEntry → List (String × String) × Option PyExc
  | [] => ([], none)
  | e :: rest =>
    if e.isRegularFile then
      ((pyJoin d (e.name ++ "_" ++ timestamp ++ ".txt"), e.content) ::
         (copyLoop d timestamp rest).1,
       (copyLoop d timestamp rest).2)
    else ([], some (.oserror "IsADirectoryError"))

/-- `save_files_rootdir(d, extensions)` (lines 157-171): sample the clock
once (line 164), filter the directory listing by name suffix only, copy the
selected entries. Returns the writes made, the exception raised if any, and
the remaining clock. -/
def save_files_rootdir (listing : List DirEntry) (d : String)
    (extensions : List String) (clock : List String) :
    (List (String × String) × Option PyExc) × List String :=
  let timestamp := clock.headD ""
  let files := listing.filter (fun e => matchesExt extensions e.name)
  (copyLoop d timestamp files, clock.tail)

/-- Captured stdout, stderr and exit status of one subprocess call. -/
structure ProcResult where
  returncode : Int
  stdout : String
  stderr : String
  deriving Repr, DecidableEq

/-- The active-environment scan of lines 123-131: strip stdout, split into
lines, find the first line containing an asterisk, take its first
whitespace token, or the second when the first is exactly `*`. Returns
`none` when no line contains an asterisk; `line.split()[1]` on a line whose
only token is `*` raises `IndexError`. -/
def parseActiveEnv (stdout : String) : Except PyExc (Option String) :=
  match (splitCharL '\n' (pyStripL stdout.toList)).find?
      (fun l => l.any (fun c => c == '*')) with
  | none => .ok none
  | some line =>
    match pySplitWsL line with
    | [] => .error .indexError
    | [t] => if t = ['*'] then .error .indexError else .ok (some t.asString)
    | t :: u :: _ => .ok (some (if t = ['*'] then u.asString else t.asString))

/-- Result of `export_conda_environment`: the Python return value (the
function returns `None` on both error paths and falls off the end on
success), the files written, the messages printed. -/
structure CondaOutcome where
  ret : Option String
  writes : List (String × String)
  printed : List String
  deriving Repr, DecidableEq

/-- `export_conda_environment(d, include_builds)` (lines 96-155), with the
two subprocess results as explicit inputs. A non-zero exit status of either
subprocess returns `None` after printing the error stream; an undetermined
active environment raises `RuntimeError` (line 134); the clock is sampled
(line 141) only after the active environment was determined. On success the
export stdout is written to `conda_env_{timestamp}.yml` while the printed
message names `conda_env_{current_env}_{timestamp}.yml`. -/
def export_conda_environment (envs exportR : ProcResult) (d : String)
    (include_builds : Bool) (clock : List String) :
    Except PyExc (CondaOutcome × List String) :=
  if envs.returncode ≠ 0 then
    .ok (⟨none, [], ["Error running conda command: " ++ envs.stderr]⟩, clock)
  else
    match parseActiveEnv envs.stdout with
    | .error e => .error e
    | .ok none => .error (.runtimeError "Could not determine current conda environment")
    | .ok (some current_env) =>
      if current_env = "" then
        .error (.runtimeError "Could not determine current conda environment")
      else
        let command := ["conda", "env", "export", "-n", current_env] ++
          (if include_builds then [] else ["--no-builds"])
        let timestamp := clock.headD ""
        let msg1 := "Running command: " ++ joinSpace command
        if exportR.returncode ≠ 0 then
          .ok (⟨none, [], [msg1, "Error exporting environment: " ++ exportR.stderr]⟩,
               clock.tail)
        else
          .ok (⟨none,
                [(pyJoin d ("conda_env_" ++ timestamp ++ ".yml"), exportR.stdout)],
                [msg1, "Environment exported to " ++
                  pyJoin d ("conda_env_" ++ current_env ++ "_" ++ timestamp ++ ".yml")]⟩,
               clock.tail)

/-- State of the destination path before the run: absent, an existing
regular file, or an existing directory with some contents. -/
inductive PathState where
  | absent
  | isFile
  | isDir (contents : List (String × String))
  deriving Repr, DecidableEq

/-- Lines 179-182 of `make_workflow_reproducible`: if the path exists,
`shutil.rmtree` it (raising `NotADirectoryError` when it is a regular
file), then `os.mkdir` a fresh empty directory. Returns the contents of the
destination directory after the reset. -/
def prepare_dir : PathState → Except PyExc (List (String × String))
  | .absent => .ok []
  | .isFile => .error (.oserror "NotADirectoryError")
  | .isDir _ => .ok []

/-- All the explicit inputs of one orchestration run: the prior state of
the destination path, the directory listing, the git query outcomes, the
two conda subprocess results, and the clock of `datetime.now()` readings. -/
structure World where
  priorDest : PathState
  listing : List DirEntry
  git : GitWorld
  condaEnvs : ProcResult
  condaExport : ProcResult
  clock : List String
  deriving Repr

/-- Observable trace of one run: the files written into the destination (in
write order, persisting across a later exception), the value returned by
the revision recorder when it ran, and the exception that escaped
`make_workflow_reproducible`, if any. -/
structure RunTrace where
  destWrites : List (String × String)
  gitReturn : Option Bool
  exc : Option PyExc
  deriving Repr

/-- `make_workflow_reproducible(w_d)` (lines 174-191): reset
`{w_d}/reproducibility`, then run the source copier, the revision recorder
and the environment exporter in order against it. None of the three calls
is wrapped in a handler, so an exception from the copier or the exporter
escapes to the caller; writes made before it persist. -/
def make_workflow_reproducible (w_d : String) (w : World) : RunTrace :=
  let r_d := pyJoin w_d "reproducibility"
  match prepare_dir w.priorDest with
  | .error e => ⟨[], none, some e⟩
  | .ok _ =>
    let sfr := save_files_rootdir w.listing r_d [".py"] w.clock
    match sfr.1.2 with
    | some e => ⟨sfr.1.1, none, some e⟩
    | none =>
      let g := save_git_commit_to_file w.git r_d sfr.2
      match export_conda_environment w.condaEnvs w.condaExport r_d false g.2 with
      | .error e => ⟨sfr.1.1 ++ g.1.writes, some g.1.ret, some e⟩
      | .ok co => ⟨sfr.1.1 ++ g.1.writes ++ co.1.writes, some g.1.ret, none⟩

/-- Project name the way the spec words it: take the final path segment of
the (stripped) remote URL, then strip a trailing `.git` suffix. The code
strips `.git` first and takes the basename second; `C7` compares the two. -/
def projectNameFromSpec (url : String) : String :=
  (stripSuffixGitL (basenameL (pyStripL url.toList))).asString

/-- A git world in which every query succeeds: commit `abc123`, branch
`main`, remote `https://github.com/user/demo.git`. -/
def gitWorldDemo : GitWorld :=
  ⟨.ok "true\n", .ok "abc123\n", .ok "main\n",
   .ok "https://github.com/user/demo.git\n", "/home/user/demo"⟩

/-- A git world in which git is unavailable: every subprocess call fails. -/
def gitWorldNoGit : GitWorld :=
  ⟨.error .calledProcessError, .error .calledProcessError,
   .error .calledProcessError, .error .calledProcessError, "/home/user/demo"⟩

/-- A `conda info --envs` result whose output marks `base` as active. -/
def condaEnvsOk : ProcResult :=
  ⟨0, "# conda environments:\n#\nbase  *  /opt/conda\n", ""⟩

/-- A `conda info --envs` result with no row marked active. -/
def condaEnvsNoStar : ProcResult :=
  ⟨0, "# conda environments:\n#\nbase     /opt/conda\n", ""⟩

/-- A successful `conda env export` result. -/
def condaExportOk : ProcResult :=
  ⟨0, "name: base\ndependencies: []\n", ""⟩

/-- A run input on which everything succeeds, with three distinct
successive clock readings and a stale file in the prior destination. -/
def worldAllOk : World :=
  ⟨.isDir [("old_file.txt", "old")], [⟨"a.py", true, "print(1)"⟩],
   gitWorldDemo, condaEnvsOk, condaExportOk, ["TA", "TB", "TC"]⟩

/-- Same run input, except the environment listing has no active row. -/
def worldNoStar : World := { worldAllOk with condaEnvs := condaEnvsNoStar }

/-- Same run input, except git is unavailable. -/
def worldNoGit : World := { worldAllOk with git := gitWorldNoGit }

/-- Same run input, except the working directory holds a subdirectory
named `subdir.py`, matching the extension filter without being a file. -/
def worldSubdir : World :=
  { worldAllOk with listing := [⟨"subdir.py", false, ""⟩] }

/-- The destination directory `{w_d}/reproducibility` of a run (line 179). -/
def destDir (w_d : String) : String := pyJoin w_d "reproducibility"

/-- The source-copier call exactly as the orchestrator issues it. -/
def copierRun (w : World) (w_d : String) :
    (List (String × String) × Option PyExc) × List String :=
  save_files_rootdir w.listing (destDir w_d) [".py"] w.clock

/-- The revision-recorder call exactly as the orchestrator issues it. -/
def recorderRun (w : World) (w_d : String) : GitOutcome × List String :=
  save_git_commit_to_file w.git (destDir w_d) (copierRun w w_d).2

/-! ### Helper lemmas -/

theorem data_append (s t : String) : (s ++ t).data = s.data ++ t.data := rfl

theorem affix_cancel (p s a b : String) (h : p ++ a ++ s = p ++ b ++ s) : a = b := by
  have hd := congrArg String.data h
  rw [data_append, data_append, data_append, data_append] at hd
  exact String.ext (List.append_cancel_left (List.append_cancel_right hd))

theorem takeWhile_notSlash_of_take4 (r : List Char)
    (h : r.take 4 = ['t', 'i', 'g', '.']) :
    r.takeWhile notSlash = 't' :: 'i' :: 'g' :: '.' :: (r.drop 4).takeWhile notSlash := by
  have hr : r = 't' :: 'i' :: 'g' :: '.' :: r.drop 4 := by
    conv_lhs => rw [← List.take_append_drop 4 r, h]
    rfl
  conv_lhs => rw [hr]
  rfl

theorem take4_of_takeWhile (r : List Char)
    (h : (r.takeWhile notSlash).take 4 = ['t', 'i', 'g', '.']) :
    r.take 4 = ['t', 'i', 'g', '.'] := by
  have hlen : 4 ≤ (r.takeWhile notSlash).length := by
    have h4 : min 4 (r.takeWhile notSlash).length = 4 := by
      rw [← List.length_take, h]
      rfl
    omega
  have hsplit := List.takeWhile_append_dropWhile (p := notSlash) (l := r)
  calc r.take 4 = (r.takeWhile notSlash ++ r.dropWhile notSlash).take 4 := by rw [hsplit]
    _ = (r.takeWhile notSlash).take 4 ++
          (r.dropWhile notSlash).take (4 - (r.takeWhile notSlash).length) := by
        rw [List.take_append_eq_append_take]
    _ = ['t', 'i', 'g', '.'] := by
        rw [h, Nat.sub_eq_zero_of_le hlen, List.take_zero, List.append_nil]

theorem basename_stripGit_comm (l : List Char) :
    basenameL (stripSuffixGitL l) = stripSuffixGitL (basenameL l) := by
  by_cases h : l.reverse.take 4 = ['t', 'i', 'g', '.']
  · have hA := takeWhile_notSlash_of_take4 l.reverse h
    unfold basenameL stripSuffixGitL
    rw [if_pos h, List.reverse_reverse, List.reverse_reverse, hA]
    simp
  · have hB : ¬ ((l.reverse.takeWhile notSlash).take 4 = ['t', 'i', 'g', '.']) :=
      fun hc => h (take4_of_takeWhile l.reverse hc)
    unfold basenameL stripSuffixGitL
    rw [if_neg h, List.reverse_reverse, if_neg hB]

theorem copyLoop_exc_none (d ts : String) (l : List DirEntry) :
    (copyLoop d ts l).2 = none ↔ ∀ e ∈ l, e.isRegularFile = true := by
  induction l with
  | nil => simp [copyLoop]
  | cons e rest ih =>
    by_cases h : e.isRegularFile
    · simp [copyLoop, h, ih]
    · simp [copyLoop, h]

theorem copyLoop_writes_stamped (d ts : String) (l : List DirEntry) :
    ∀ pr ∈ (copyLoop d ts l).1,
      ∃ orig content, pr = (pyJoin d (orig ++ "_" ++ ts ++ ".txt"), content) := by
  induction l with
  | nil => simp [copyLoop]
  | cons e rest ih =>
    by_cases h : e.isRegularFile
    · intro pr hpr
      rw [copyLoop, if_pos h] at hpr
      rcases List.mem_cons.mp hpr with h1 | h1
      · exact ⟨e.name, e.content, h1⟩
      · exact ih pr h1
    · intro pr hpr
      rw [copyLoop, if_neg h] at hpr
      simp at hpr

theorem recorder_success_shape (gw : GitWorld) (d : String) (clock : List String)
    (h : (save_git_commit_to_file gw d clock).1.ret = true) :
    (∃ content,
      (save_git_commit_to_file gw d clock).1.writes =
        [(pyJoin d ("git_commit_" ++ clock.headD "" ++ ".txt"), content)]) ∧
    (save_git_commit_to_file gw d clock).2 = clock.tail := by
  rcases h1 : gw.isInsideWorkTree with e | a
  · simp only [save_git_commit_to_file, save_git_commit_body, h1] at h
    cases e <;> simp_all
  rcases h2 : gw.revParseHead with e | b
  · simp only [save_git_commit_to_file, save_git_commit_body, h1, h2] at h
    cases e <;> simp_all
  rcases h3 : gw.abbrevRefHead with e | c
  · simp only [save_git_commit_to_file, save_git_commit_body, h1, h2, h3] at h
    cases e <;> simp_all
  refine ⟨⟨gitDescriptor (projectName gw) (pyStrip c) (pyStrip b), ?_⟩, ?_⟩ <;>
    simp only [save_git_commit_to_file, save_git_commit_body, h1, h2, h3]

theorem recorder_error_shape (gw : GitWorld) (d : String) (clock : List String)
    (e : PyExc) (h : save_git_commit_body gw d clock = Except.error e) :
    (save_git_commit_to_file gw d clock).1.ret = false ∧
    (save_git_commit_to_file gw d clock).1.writes = [] ∧
    (save_git_commit_to_file gw d clock).2 = clock := by
  cases e <;> simp [save_git_commit_to_file, h]

theorem conda_ok_writes_shape (envs exportR : ProcResult) (d : String)
    (include_builds : Bool) (clock : List String) (co : CondaOutcome)
    (c' : List String)
    (h : export_conda_environment envs exportR d include_builds clock = .ok (co, c')) :
    co.writes = [] ∨
      ∃ content,
        co.writes = [(pyJoin d ("conda_env_" ++ clock.headD "" ++ ".yml"), content)] := by
  by_cases h0 : envs.returncode ≠ 0
  · rw [export_conda_environment, if_pos h0] at h
    injection h with h
    injection h with hco _
    left
    rw [← hco]
  · rcases hp : parseActiveEnv envs.stdout with e | env
    · simp only [export_conda_environment, if_neg h0, hp] at h
      injection h
    rcases env with _ | env
    · simp only [export_conda_environment, if_neg h0, hp] at h
      injection h
    by_cases he : env = ""
    · simp only [export_conda_environment, if_neg h0, hp, if_pos he] at h
      injection h
    by_cases hx : exportR.returncode ≠ 0
    · simp only [export_conda_environment, if_neg h0, hp, if_neg he, if_pos hx] at h
      injection h with h
      injection h with hco _
      left
      rw [← hco]
    · simp only [export_conda_environment, if_neg h0, hp, if_neg he, if_neg hx] at h
      injection h with h
      injection h with hco _
      right
      exact ⟨exportR.stdout, by rw [← hco]⟩

/-! ### Claims -/

/-- C5: for every target path at which a directory already exists, the
reset step of lines 179-182 deletes it with its contents and creates a
fresh empty directory, so a rerun against the same destination depends in
no way on the prior contents: the run trace is identical whatever was
there before. -/
theorem C5_reset_clears_prior_contents (c c' : List (String × String))
    (w : World) (w_d : String) :
    prepare_dir (PathState.isDir c) = Except.ok [] ∧
    make_workflow_reproducible w_d { w with priorDest := PathState.isDir c } =
      make_workflow_reproducible w_d { w with priorDest := PathState.isDir c' } := by
  exact ⟨rfl, by simp [make_workflow_reproducible, prepare_dir]⟩

/-- C6: with commit hash `abc123`, branch `main` and project `demo`, the
descriptor file written by the revision recorder holds exactly the lines
`Branch Name: main` and `Commit Hash: abc123`, a single-commit URL line
containing `demo/commit/abc123`, a commit-log URL line containing
`demo/commits/abc123`, and the fixed dirty-tree warning line. -/
theorem C6_descriptor_lines :
    (save_git_commit_to_file gitWorldDemo "out" ["20250101_000000"]).1.writes =
      [("out/git_commit_20250101_000000.txt",
        gitDescriptor "demo" "main" "abc123")] ∧
    (splitCharL '\n' (gitDescriptor "demo" "main" "abc123").toList).map
        List.asString =
      ["Project Name: demo",
       "Branch Name: main",
       "Commit Hash: abc123",
       "View single commit: https://github.com/<user>/demo/commit/abc123",
       "View log: https://github.com/<user>/demo/commits/abc123",
       "/!\\ the files in the directory may have been modified since the last commit!!",
       ""] :=
  ⟨rfl, rfl⟩

/-- C8: on a working directory holding exactly the regular files `a.py`,
`b.py` and `notes.txt`, the source copier with extensions `[".py"]` writes
exactly `a.py_<ts>.txt` and `b.py_<ts>.txt` to the destination, where `ts`
is the timestamp sampled by this run, and no copy of `notes.txt`. -/
theorem C8_copy_scenario (d ts : String) (rest : List String) :
    save_files_rootdir
        [⟨"a.py", true, "A"⟩, ⟨"b.py", true, "B"⟩, ⟨"notes.txt", true, "N"⟩]
        d [".py"] (ts :: rest) =
      (([(pyJoin d ("a.py_" ++ ts ++ ".txt"), "A"),
         (pyJoin d ("b.py_" ++ ts ++ ".txt"), "B")], none), rest) := rfl

/-- C9 counterexample: a subdirectory whose name ends in `.py` is selected
by the extension-only filter of line 167, and makes the copy step raise
`IsADirectoryError`; inside the orchestrator the exception escapes the
whole run. The claim that non-regular-file entries are never selected and
never make the copy step fail is therefore false. -/
theorem C9_counterexample :
    List.filter (fun e => matchesExt [".py"] e.name)
        [(⟨"subdir.py", false, ""⟩ : DirEntry)] = [⟨"subdir.py", false, ""⟩] ∧
    (save_files_rootdir [⟨"subdir.py", false, ""⟩] "dest" [".py"] ["T1"]).1 =
      ([], some (PyExc.oserror "IsADirectoryError")) ∧
    (make_workflow_reproducible "." worldSubdir).exc =
      some (PyExc.oserror "IsADirectoryError") :=
  ⟨rfl, rfl, rfl⟩

/-- C9 amended: the source copier selects entries by name suffix alone,
regardless of file kind; the copy step completes without an exception
exactly when every selected entry is a regular file. -/
theorem C9_selection_ignores_file_kind (listing : List DirEntry) (d : String)
    (extensions : List String) (ts : String) (rest : List String) :
    (save_files_rootdir listing d extensions (ts :: rest)).1.2 = none ↔
      ∀ e ∈ listing.filter (fun e => matchesExt extensions e.name),
        e.isRegularFile = true := by
  rw [save_files_rootdir]
  exact copyLoop_exc_none d ts _

theorem pyJoin_inj_right (d f g : String) (hf : startsWithSlash f = false)
    (hg : startsWithSlash g = false) (he : pyJoin d f = pyJoin d g) : f = g := by
  simp only [pyJoin, hf, hg, Bool.false_eq_true, if_false] at he
  by_cases hd : d = ""
  · rw [if_pos hd, if_pos hd] at he
    exact he
  · rw [if_neg hd, if_neg hd] at he
    by_cases hs : endsWithL d.toList ['/'] = true
    · rw [if_pos hs, if_pos hs] at he
      have hdata := congrArg String.data he
      rw [data_append, data_append] at hdata
      exact String.ext (List.append_cancel_left hdata)
    · rw [if_neg hs, if_neg hs] at he
      have hdata := congrArg String.data he
      rw [data_append, data_append, data_append, data_append] at hdata
      exact String.ext (List.append_cancel_left hdata)

/-- C7: when the remote-URL query fails (no remote configured, or any
other exception), the recorded project name is the basename of the current
working directory; when it yields a URL, the recorded project name agrees
with the spec reading of taking the final path segment first and stripping
a trailing `.git` second (`projectNameFromSpec`), even though the code
strips first and takes the segment second. -/
theorem C7_project_name (w : GitWorld) :
    (∀ e : PyExc, w.remoteOriginUrl = Except.error e →
      projectName w = (basenameL w.cwdAbsPath.toList).asString) ∧
    (∀ out : String, w.remoteOriginUrl = Except.ok out →
      projectName w = projectNameFromSpec out) := by
  constructor
  · intro e he
    simp only [projectName, he]
  · intro out hout
    simp only [projectName, hout, projectNameFromSpec, basename_stripGit_comm]

/-- C7 witness: instantiating both halves at concrete worlds; with the
remote `https://github.com/user/demo.git` the recorded name is `demo`, and
with every query failing it is the basename of `/home/user/demo`. -/
theorem C7_project_name_witness :
    projectName gitWorldDemo = projectNameFromSpec "https://github.com/user/demo.git\n" ∧
    projectName gitWorldNoGit = (basenameL gitWorldNoGit.cwdAbsPath.toList).asString ∧
    projectName gitWorldDemo = "demo" ∧
    projectName gitWorldNoGit = "demo" :=
  ⟨(C7_project_name gitWorldDemo).2 "https://github.com/user/demo.git\n" rfl,
   (C7_project_name gitWorldNoGit).1 PyExc.calledProcessError rfl,
   rfl, rfl⟩

/-- C3: for every outcome of the external version-control queries
(including every error kind), the revision recorder returns a plain
boolean result; its return type in this embedding is exception-free, and
whenever the body raises (any `CalledProcessError` from a required query,
or any generic exception), the handlers of lines 89-94 convert it to a
`false` result with no file written. -/
theorem C3_recorder_never_raises (w : GitWorld) (d : String)
    (clock : List String) :
    ∀ e : PyExc, save_git_commit_body w d clock = Except.error e →
      (save_git_commit_to_file w d clock).1.ret = false ∧
      (save_git_commit_to_file w d clock).1.writes = [] := by
  intro e h
  exact ⟨(recorder_error_shape w d clock e h).1,
         (recorder_error_shape w d clock e h).2.1⟩

/-- C3 witness: with git unavailable the recorder returns `false` and
writes nothing. -/
theorem C3_recorder_never_raises_witness :
    (save_git_commit_to_file gitWorldNoGit "." []).1.ret = false ∧
    (save_git_commit_to_file gitWorldNoGit "." []).1.writes = [] :=
  C3_recorder_never_raises gitWorldNoGit "." [] PyExc.calledProcessError rfl

/-- C10: on every successful export the function returns `None` (dropping
off the end of the Python function body), and the success message of line
155 names `conda_env_{current_env}_{timestamp}.yml`, which is never the
path of the file actually written, `conda_env_{timestamp}.yml`
(line 152). -/
theorem C10_export_returns_none_and_misnames_file (envs exportR : ProcResult)
    (d env ts : String) (rest : List String)
    (h0 : envs.returncode = 0)
    (hp : parseActiveEnv envs.stdout = Except.ok (some env))
    (hne : ¬ env = "")
    (hx : exportR.returncode = 0) :
    export_conda_environment envs exportR d false (ts :: rest) =
      Except.ok
        (⟨none,
          [(pyJoin d ("conda_env_" ++ ts ++ ".yml"), exportR.stdout)],
          ["Running command: " ++
             joinSpace ["conda", "env", "export", "-n", env, "--no-builds"],
           "Environment exported to " ++
             pyJoin d ("conda_env_" ++ env ++ "_" ++ ts ++ ".yml")]⟩,
         rest) ∧
    pyJoin d ("conda_env_" ++ env ++ "_" ++ ts ++ ".yml") ≠
      pyJoin d ("conda_env_" ++ ts ++ ".yml") := by
  have h0' : ¬ envs.returncode ≠ 0 := by simp [h0]
  have hx' : ¬ exportR.returncode ≠ 0 := by simp [hx]
  constructor
  · simp only [export_conda_environment, if_neg h0', hp, if_neg hne, if_neg hx']
    rfl
  · intro he
    have hfg := pyJoin_inj_right d ("conda_env_" ++ env ++ "_" ++ ts ++ ".yml")
      ("conda_env_" ++ ts ++ ".yml") rfl rfl he
    have hlen := congrArg String.length hfg
    simp only [String.length_append] at hlen
    have h1 : "_".length = 1 := rfl
    omega

/-- C10 witness: at a concrete successful export the returned value is
`none` and the printed name differs from the written name. -/
theorem C10_export_returns_none_and_misnames_file_witness :
    export_conda_environment condaEnvsOk condaExportOk "out" false ["TS", "R"] =
      Except.ok
        (⟨none,
          [(pyJoin "out" ("conda_env_" ++ "TS" ++ ".yml"), condaExportOk.stdout)],
          ["Running command: " ++
             joinSpace ["conda", "env", "export", "-n", "base", "--no-builds"],
           "Environment exported to " ++
             pyJoin "out" ("conda_env_" ++ "base" ++ "_" ++ "TS" ++ ".yml")]⟩,
         ["R"]) ∧
    pyJoin "out" ("conda_env_" ++ "base" ++ "_" ++ "TS" ++ ".yml") ≠
      pyJoin "out" ("conda_env_" ++ "TS" ++ ".yml") :=
  C10_export_returns_none_and_misnames_file condaEnvsOk condaExportOk "out"
    "base" "TS" ["R"] rfl rfl (by decide) rfl

/-- C1 counterexample: with distinct successive clock readings `TA`, `TB`,
`TC` and every component succeeding, the three artifacts of one run carry
three different timestamp components, so no single timestamp `ts` fixed at
orchestration start appears in all filenames: each component samples
`datetime.now()` itself (lines 164, 76 and 141). -/
theorem C1_counterexample :
    (make_workflow_reproducible "." worldAllOk).destWrites.map Prod.fst =
      ["./reproducibility/a.py_TA.txt",
       "./reproducibility/git_commit_TB.txt",
       "./reproducibility/conda_env_TC.yml"] ∧
    ¬ ∃ ts : String,
        (make_workflow_reproducible "." worldAllOk).destWrites.map Prod.fst =
          ["./reproducibility/a.py_" ++ ts ++ ".txt",
           "./reproducibility/git_commit_" ++ ts ++ ".txt",
           "./reproducibility/conda_env_" ++ ts ++ ".yml"] := by
  refine ⟨rfl, ?_⟩
  rintro ⟨ts, h⟩
  have h' : (["./reproducibility/a.py_TA.txt",
      "./reproducibility/git_commit_TB.txt",
      "./reproducibility/conda_env_TC.yml"] : List String) =
      ["./reproducibility/a.py_" ++ ts ++ ".txt",
       "./reproducibility/git_commit_" ++ ts ++ ".txt",
       "./reproducibility/conda_env_" ++ ts ++ ".yml"] := h
  simp only [List.cons.injEq, and_true] at h'
  obtain ⟨e1, e2, -⟩ := h'
  have e1' : "./reproducibility/a.py_" ++ "TA" ++ ".txt" =
      "./reproducibility/a.py_" ++ ts ++ ".txt" := e1
  have e2' : "./reproducibility/git_commit_" ++ "TB" ++ ".txt" =
      "./reproducibility/git_commit_" ++ ts ++ ".txt" := e2
  have t1 : "TA" = ts := affix_cancel _ _ _ _ e1'
  have t2 : "TB" = ts := affix_cancel _ _ _ _ e2'
  rw [← t1] at t2
  exact absurd t2 (by decide)

/-- C1 amended: each component stamps its artifacts with the clock reading
it samples itself, not with a run-wide timestamp: when the three successive
readings are `t1`, `t2`, `t3` and a run completes with the recorder
succeeding, every artifact filename is either a source copy stamped `t1`,
the descriptor stamped `t2`, or the manifest stamped `t3`; the stamps
coincide across components only when the readings do. -/
theorem C1_per_component_timestamps (w : World) (w_d t1 t2 t3 : String)
    (rest : List String)
    (hclock : w.clock = t1 :: t2 :: t3 :: rest)
    (hexc : (make_workflow_reproducible w_d w).exc = none)
    (hgit : (make_workflow_reproducible w_d w).gitReturn = some true) :
    ∀ p ∈ (make_workflow_reproducible w_d w).destWrites.map Prod.fst,
      (∃ orig, p = pyJoin (destDir w_d) (orig ++ "_" ++ t1 ++ ".txt")) ∨
      p = pyJoin (destDir w_d) ("git_commit_" ++ t2 ++ ".txt") ∨
      p = pyJoin (destDir w_d) ("conda_env_" ++ t3 ++ ".yml") := by
  rcases hprep : prepare_dir w.priorDest with e | base
  · simp only [make_workflow_reproducible, hprep] at hexc
    exact Option.noConfusion hexc
  · rcases hcopy : (copierRun w w_d).1.2 with _ | e
    case some =>
      have hcopy' : (save_files_rootdir w.listing (pyJoin w_d "reproducibility")
          [".py"] w.clock).1.2 = some e := hcopy
      simp only [make_workflow_reproducible, hprep, hcopy'] at hgit
      exact Option.noConfusion hgit
    case none =>
      have hcopy' : (save_files_rootdir w.listing (pyJoin w_d "reproducibility")
          [".py"] w.clock).1.2 = none := hcopy
      rcases hexp : export_conda_environment w.condaEnvs w.condaExport
          (pyJoin w_d "reproducibility") false (recorderRun w w_d).2 with e | co
      · have hexp' : export_conda_environment w.condaEnvs w.condaExport
            (pyJoin w_d "reproducibility") false
            (save_git_commit_to_file w.git (pyJoin w_d "reproducibility")
              (save_files_rootdir w.listing (pyJoin w_d "reproducibility")
                [".py"] w.clock).2).2 = Except.error e := hexp
        simp only [make_workflow_reproducible, hprep, hcopy', hexp'] at hexc
        exact Option.noConfusion hexc
      · have hexp' : export_conda_environment w.condaEnvs w.condaExport
            (pyJoin w_d "reproducibility") false
            (save_git_commit_to_file w.git (pyJoin w_d "reproducibility")
              (save_files_rootdir w.listing (pyJoin w_d "reproducibility")
                [".py"] w.clock).2).2 = Except.ok co := hexp
        have hrun : make_workflow_reproducible w_d w =
            ⟨(copierRun w w_d).1.1 ++ (recorderRun w w_d).1.writes ++ co.1.writes,
             some (recorderRun w w_d).1.ret, none⟩ := by
          simp only [make_workflow_reproducible, hprep, hcopy', hexp']
          rfl
        rw [hrun] at hgit ⊢
        have hret : (recorderRun w w_d).1.ret = true := by
          simpa using hgit
        have hshape := recorder_success_shape w.git (destDir w_d)
          (copierRun w w_d).2 hret
        obtain ⟨⟨content, hwrites⟩, hclk2⟩ := hshape
        have hc1 : (copierRun w w_d).2 = t2 :: t3 :: rest := by
          show w.clock.tail = t2 :: t3 :: rest
          rw [hclock]
          rfl
        have hcondaClock : (recorderRun w w_d).2 = t3 :: rest := by
          rw [recorderRun, hclk2, hc1]
          rfl
        intro p hp
        simp only [List.map_append, List.mem_append] at hp
        rcases hp with (hp | hp) | hp
        · left
          rcases List.mem_map.mp hp with ⟨pr, hpr, rfl⟩
          have := copyLoop_writes_stamped (destDir w_d) (w.clock.headD "")
            (w.listing.filter (fun e => matchesExt [".py"] e.name)) pr hpr
          rcases this with ⟨orig, c, rfl⟩
          refine ⟨orig, ?_⟩
          rw [hclock]
          rfl
        · right; left
          rcases List.mem_map.mp hp with ⟨pr, hpr, rfl⟩
          rw [recorderRun, hwrites] at hpr
          rcases List.mem_cons.mp hpr with h1 | h1
          · rw [h1, hc1]
            rfl
          · simp at h1
        · right; right
          rcases List.mem_map.mp hp with ⟨pr, hpr, rfl⟩
          rcases conda_ok_writes_shape w.condaEnvs w.condaExport (destDir w_d)
              false (recorderRun w w_d).2 co.1 co.2 hexp with hnil | ⟨c, hw⟩
          · rw [hnil] at hpr
            simp at hpr
          · rw [hw] at hpr
            rcases List.mem_cons.mp hpr with h1 | h1
            · rw [h1, hcondaClock]
              rfl
            · simp at h1

/-- C1 amended witness: in the all-success run with readings `TA`, `TB`,
`TC`, the descriptor filename is stamped with the second reading. -/
theorem C1_per_component_timestamps_witness :
    (∃ orig, "./reproducibility/git_commit_TB.txt" =
        pyJoin (destDir ".") (orig ++ "_" ++ "TA" ++ ".txt")) ∨
    "./reproducibility/git_commit_TB.txt" =
      pyJoin (destDir ".") ("git_commit_" ++ "TB" ++ ".txt") ∨
    "./reproducibility/git_commit_TB.txt" =
      pyJoin (destDir ".") ("conda_env_" ++ "TC" ++ ".yml") :=
  C1_per_component_timestamps worldAllOk "." "TA" "TB" "TC" [] rfl rfl rfl
    "./reproducibility/git_commit_TB.txt" (by decide)

/-- C2 counterexample: when the environment listing has no row marked
active, line 134 raises `RuntimeError`, and `make_workflow_reproducible`
calls the exporter with no handler (line 191), so the exception escapes
the orchestrator to the caller, refuting the claim that the failure is
fatal to the exporter only. The copier and recorder artifacts, written
earlier, are still present in the trace. -/
theorem C2_counterexample :
    make_workflow_reproducible "." worldNoStar =
      ⟨[("./reproducibility/a.py_TA.txt", "print(1)"),
        ("./reproducibility/git_commit_TB.txt", gitDescriptor "demo" "main" "abc123")],
       some true,
       some (PyExc.runtimeError "Could not determine current conda environment")⟩ ∧
    ¬ (make_workflow_reproducible "." worldNoStar).exc = none :=
  ⟨rfl, by decide⟩

/-- C2 amended: when the listing query succeeds but no row is marked
active, the exporter writes no manifest file and raises a `RuntimeError`
that propagates past the orchestrator to the caller; the artifacts already
written by the source copier and the revision recorder remain (the
exporter runs last). -/
theorem C2_no_active_env_raises_past_orchestrator (w : World) (w_d : String)
    (base : List (String × String))
    (hprep : prepare_dir w.priorDest = Except.ok base)
    (hcopy : (copierRun w w_d).1.2 = none)
    (henvs : w.condaEnvs.returncode = 0)
    (hstar : parseActiveEnv w.condaEnvs.stdout = Except.ok none) :
    make_workflow_reproducible w_d w =
      ⟨(copierRun w w_d).1.1 ++ (recorderRun w w_d).1.writes,
       some (recorderRun w w_d).1.ret,
       some (PyExc.runtimeError "Could not determine current conda environment")⟩ := by
  have h0' : ¬ w.condaEnvs.returncode ≠ 0 := by simp [henvs]
  have hexp : export_conda_environment w.condaEnvs w.condaExport
      (pyJoin w_d "reproducibility") false
      (save_git_commit_to_file w.git (pyJoin w_d "reproducibility")
        (save_files_rootdir w.listing (pyJoin w_d "reproducibility")
          [".py"] w.clock).2).2 =
      Except.error (PyExc.runtimeError "Could not determine current conda environment") := by
    simp only [export_conda_environment, if_neg h0', hstar]
  have hcopy' : (save_files_rootdir w.listing (pyJoin w_d "reproducibility")
      [".py"] w.clock).1.2 = none := hcopy
  simp only [make_workflow_reproducible, hprep, hcopy', hexp]
  rfl

/-- C2 amended witness: the concrete no-active-row run. -/
theorem C2_no_active_env_raises_past_orchestrator_witness :
    make_workflow_reproducible "." worldNoStar =
      ⟨(copierRun worldNoStar ".").1.1 ++ (recorderRun worldNoStar ".").1.writes,
       some (recorderRun worldNoStar ".").1.ret,
       some (PyExc.runtimeError "Could not determine current conda environment")⟩ :=
  C2_no_active_env_raises_past_orchestrator worldNoStar "." [] rfl rfl rfl rfl

/-- C4: when the working directory is not inside a git work tree (the
first query raises), the recorder returns `false` and writes no descriptor
file, it consumes no clock reading, and the orchestrator still completes:
the destination holds exactly the source copies and the environment
manifest. -/
theorem C4_no_worktree_other_artifacts_still_produced (w : World)
    (w_d : String) (base : List (String × String)) (e : PyExc) (env : String)
    (hprep : prepare_dir w.priorDest = Except.ok base)
    (hgit : w.git.isInsideWorkTree = Except.error e)
    (hcopy : (copierRun w w_d).1.2 = none)
    (henvs : w.condaEnvs.returncode = 0)
    (hstar : parseActiveEnv w.condaEnvs.stdout = Except.ok (some env))
    (hne : ¬ env = "")
    (hexp : w.condaExport.returncode = 0) :
    (recorderRun w w_d).1.ret = false ∧
    (recorderRun w w_d).1.writes = [] ∧
    (recorderRun w w_d).2 = (copierRun w w_d).2 ∧
    make_workflow_reproducible w_d w =
      ⟨(copierRun w w_d).1.1 ++
         [(pyJoin (destDir w_d)
             ("conda_env_" ++ (recorderRun w w_d).2.headD "" ++ ".yml"),
           w.condaExport.stdout)],
       some false, none⟩ := by
  have hbody : save_git_commit_body w.git (destDir w_d) (copierRun w w_d).2 =
      Except.error e := by
    simp only [save_git_commit_body, hgit]
  have herr := recorder_error_shape w.git (destDir w_d) (copierRun w w_d).2 e hbody
  refine ⟨herr.1, herr.2.1, herr.2.2, ?_⟩
  have h0' : ¬ w.condaEnvs.returncode ≠ 0 := by simp [henvs]
  have hx' : ¬ w.condaExport.returncode ≠ 0 := by simp [hexp]
  have hcopy' : (save_files_rootdir w.listing (pyJoin w_d "reproducibility")
      [".py"] w.clock).1.2 = none := hcopy
  have hexpeq : export_conda_environment w.condaEnvs w.condaExport
      (pyJoin w_d "reproducibility") false
      (save_git_commit_to_file w.git (pyJoin w_d "reproducibility")
        (save_files_rootdir w.listing (pyJoin w_d "reproducibility")
          [".py"] w.clock).2).2 =
      Except.ok
        (⟨none,
          [(pyJoin (pyJoin w_d "reproducibility")
              ("conda_env_" ++
                (save_git_commit_to_file w.git (pyJoin w_d "reproducibility")
                  (save_files_rootdir w.listing (pyJoin w_d "reproducibility")
                    [".py"] w.clock).2).2.headD "" ++ ".yml"),
            w.condaExport.stdout)],
          ["Running command: " ++
             joinSpace ["conda", "env", "export", "-n", env, "--no-builds"],
           "Environment exported to " ++
             pyJoin (pyJoin w_d "reproducibility")
               ("conda_env_" ++ env ++ "_" ++
                 (save_git_commit_to_file w.git (pyJoin w_d "reproducibility")
                   (save_files_rootdir w.listing (pyJoin w_d "reproducibility")
                     [".py"] w.clock).2).2.headD "" ++ ".yml")]⟩,
         (save_git_commit_to_file w.git (pyJoin w_d "reproducibility")
           (save_files_rootdir w.listing (pyJoin w_d "reproducibility")
             [".py"] w.clock).2).2.tail) := by
    simp only [export_conda_environment, if_neg h0', hstar, if_neg hne, if_neg hx']
    rfl
  simp only [make_workflow_reproducible, hprep, hcopy', hexpeq]
  have hwr : (save_git_commit_to_file w.git (pyJoin w_d "reproducibility")
      (save_files_rootdir w.listing (pyJoin w_d "reproducibility")
        [".py"] w.clock).2).1.writes = [] := herr.2.1
  have hrt : (save_git_commit_to_file w.git (pyJoin w_d "reproducibility")
      (save_files_rootdir w.listing (pyJoin w_d "reproducibility")
        [".py"] w.clock).2).1.ret = false := herr.1
  rw [hwr, hrt, List.append_nil]
  rfl

/-- C4 witness: the concrete run with git unavailable still produces the
copied source file and the environment manifest. -/
theorem C4_no_worktree_other_artifacts_still_produced_witness :
    (recorderRun worldNoGit ".").1.ret = false ∧
    (recorderRun worldNoGit ".").1.writes = [] ∧
    (recorderRun worldNoGit ".").2 = (copierRun worldNoGit ".").2 ∧
    make_workflow_reproducible "." worldNoGit =
      ⟨(copierRun worldNoGit ".").1.1 ++
         [(pyJoin (destDir ".")
             ("conda_env_" ++ (recorderRun worldNoGit ".").2.headD "" ++ ".yml"),
           worldNoGit.condaExport.stdout)],
       some false, none⟩ :=
  C4_no_worktree_other_artifacts_still_produced worldNoGit "." []
    PyExc.calledProcessError "base" rfl rfl rfl rfl rfl (by decide) rfl

end Repro
